import Mathlib

/-!
Beacon firmware (`main.c`): shallow embedding and verified properties

The program is a single C file written against the CSR uEnergy SDK.  It owns one
global, the 26-byte advertisement payload `data_b`, and three entry points that
the SDK calls: `AppInit` at start-up, `startTimer` as the handler of a one-shot
timer, and `AppProcessSystemEvent` for system events.

Embedding conventions.

* The program state is the record `State`: the payload `data_b`, the levels of
  the two pins the program uses, the outstanding one-shot timers, the halt flag
  set by `Panic`, and the list of SDK calls made so far (`trace`).
* Every SDK function called by the source is a Lean function of the same name
  that appends one `SdkCall` to the trace.  What the hardware answers (the result
  of `TimerCreate`, the thermometer and battery readings) is an explicit input of
  the handler (`TickInput`); the level of the input line is the field `sensor`.
* `uint8` values are naturals below 256, `int16` values are integers wrapped by
  `toInt16`, an assignment to a `uint8` object is `toUInt8`.
* `Panic` does not return: the handler ends there with `halted` set.
-/

namespace Beacon

set_option linter.unusedVariables false

/-! ## Constants of the source and of the SDK headers -/

/-- Number of timers used in this application (`#define MAX_TIMERS 1`). -/
def MAX_TIMERS : Nat := 1

/-- Pin of the heartbeat LED (`#define LED 10`). -/
def LED : Nat := 10

/-- Pin of the monitored input line (`#define SENSOR 11`). -/
def SENSOR : Nat := 11

/-- Modelled from the spec: the SDK header that defines `MILLISECOND` is not part
of the sources; SDK times are counted in microseconds, one millisecond is 1000. -/
def MILLISECOND : Nat := 1000

/-- Modelled from the spec: the SDK header that defines `SECOND` is not part of
the sources; the spec gives the timer interval `1 * SECOND` as 1000 ms. -/
def SECOND : Nat := 1000 * MILLISECOND

/-- The value `TimerCreate` returns when no timer could be created.  A timer id
is modelled as `Option Nat`, `none` standing for `TIMER_INVALID`. -/
def TIMER_INVALID : Option Nat := none

/-- The initial contents of the global `data_b`. -/
def data_b_init : List Nat :=
  [0xff, 0x4c, 0x00, 0x02, 0x15, 0x01, 0x02, 0x03, 0x04, 0x05, 0x06, 0x07, 0x08,
   0x09, 0x0a, 0x0b, 0x0c, 0x0d, 0x0e, 0x0f, 0x10, 0x00, 0x01, 0x00, 0x01, 0x30]

/-! ## SDK enumerations used by the source -/

inductive pio_mode
  | pio_mode_user
  | pio_mode_weak_pull_up
  deriving DecidableEq, Repr

inductive pio_event_mode
  | pio_event_mode_both
  deriving DecidableEq, Repr

inductive ad_src
  | ad_src_advertise
  deriving DecidableEq, Repr

inductive whitelist_mode
  | whitelist_disabled
  deriving DecidableEq, Repr

inductive ls_addr_type
  | ls_addr_type_public
  deriving DecidableEq, Repr

inductive gap_const
  | gap_role_broadcaster
  | gap_mode_discover_no
  | gap_mode_connect_no
  | gap_mode_bond_no
  | gap_mode_security_unauthenticate
  deriving DecidableEq, Repr

inductive sleep_mode
  | sleep_mode_deep
  deriving DecidableEq, Repr

/-- System event identifiers.  The source names one of them,
`sys_event_pio_changed`; every other identifier of the SDK enumeration is
`other code`. -/
inductive sys_event_id
  | sys_event_pio_changed
  | other (code : Nat)
  deriving DecidableEq, Repr

/-! ## SDK calls and program state -/

/-- One call of an SDK function, with its arguments and, for the functions that
return a value, the value returned. -/
inductive SdkCall
  | TimerCreate (delay : Nat) (relative : Bool) (result : Option Nat)
  | Panic (code : Nat)
  | PioGet (pin : Nat) (result : Bool)
  | PioSet (pin : Nat) (level : Bool)
  | ThermometerReadTemperature (result : Int)
  | BatteryReadVoltage (result : Nat)
  | LsStoreAdvScanData (len : Nat) (data : List Nat) (src : ad_src)
  | LsStartStopAdvertise (enable : Bool) (wl : whitelist_mode) (addr : ls_addr_type)
  | LsStartStopScan (enable : Bool) (wl : whitelist_mode) (addr : ls_addr_type)
  | PioSetMode (pin : Nat) (mode : pio_mode)
  | PioSetDir (pin : Nat) (output : Bool)
  | PioSetPullModes (mask : Nat) (mode : pio_mode)
  | PioSetEventMask (mask : Nat) (mode : pio_event_mode)
  | TimerInit (count : Nat)
  | GapSetMode (role discover connect bond security : gap_const)
  | GapSetStaticAddress
  | GapSetAdvInterval (lo hi : Nat)
  | SleepModeChange (mode : sleep_mode)
  deriving DecidableEq, Repr

/-- An outstanding one-shot timer.  Its handler is always `startTimer`, the only
handler the source ever passes to `TimerCreate`. -/
structure Timer where
  id : Nat
  delay : Nat
  deriving DecidableEq, Repr

structure State where
  /-- The global payload buffer `data_b`. -/
  data_b : List Nat
  /-- Level of the output pin `LED`. -/
  led : Bool
  /-- Level of the input pin `SENSOR`. -/
  sensor : Bool
  /-- Outstanding one-shot timers. -/
  timers : List Timer
  /-- The argument of `Panic` once the program has panicked. -/
  halted : Option Nat
  /-- The SDK calls made so far, oldest first. -/
  trace : List SdkCall
  deriving DecidableEq, Repr

/-- What the hardware answers during one run of `startTimer`. -/
structure TickInput where
  /-- Result of `TimerCreate`; `none` is `TIMER_INVALID`. -/
  tId : Option Nat
  /-- Result of `ThermometerReadTemperature`. -/
  temp : Int
  /-- Result of `BatteryReadVoltage`, in millivolts. -/
  mV : Nat
  deriving DecidableEq, Repr

/-- The state at power-on: the payload holds its initialiser, nothing has been
called, no timer exists.  The two pin levels are whatever the hardware has. -/
def initState (led sensor : Bool) : State :=
  { data_b := data_b_init, led := led, sensor := sensor, timers := [],
    halted := none, trace := [] }

/-! ## C conversions -/

/-- Conversion to `int16`: the value modulo 2^16, in the range -32768..32767. -/
def toInt16 (x : Int) : Int := (x + 32768) % 65536 - 32768

/-- Conversion to `uint8`: the value modulo 2^8. -/
def toUInt8 (x : Int) : Nat := (x % 256).toNat

/-! ## SDK functions -/

def log (c : SdkCall) (s : State) : State := { s with trace := s.trace ++ [c] }

/-- `TimerCreate(delay, relative, startTimer)`: when the SDK answers with a timer
id the timer becomes outstanding, when it answers `TIMER_INVALID` nothing is
created. -/
def TimerCreate (result : Option Nat) (delay : Nat) (relative : Bool) (s : State) :
    Option Nat × State :=
  let s1 := log (.TimerCreate delay relative result) s
  match result with
  | some i => (some i, { s1 with timers := s1.timers ++ [{ id := i, delay := delay }] })
  | none => (none, s1)

/-- `Panic(code)`: the firmware stops; the caller does not continue. -/
def Panic (code : Nat) (s : State) : State :=
  { log (.Panic code) s with halted := some code }

/-- `PioGet(pin)`: the level of the pin. -/
def PioGet (pin : Nat) (s : State) : Bool × State :=
  let level := if pin = LED then s.led else if pin = SENSOR then s.sensor else false
  (level, log (.PioGet pin level) s)

/-- `PioSet(pin, level)`: drives the pin. -/
def PioSet (pin : Nat) (level : Bool) (s : State) : State :=
  let s1 := log (.PioSet pin level) s
  if pin = LED then { s1 with led := level } else s1

def ThermometerReadTemperature (result : Int) (s : State) : Int × State :=
  (result, log (.ThermometerReadTemperature result) s)

def BatteryReadVoltage (result : Nat) (s : State) : Nat × State :=
  (result, log (.BatteryReadVoltage result) s)

/-- `LsStoreAdvScanData(len, data_b, src)`: the call is recorded with the contents
the buffer has at the time of the call. -/
def LsStoreAdvScanData (len : Nat) (src : ad_src) (s : State) : State :=
  log (.LsStoreAdvScanData len s.data_b src) s

def LsStartStopAdvertise (enable : Bool) (wl : whitelist_mode) (addr : ls_addr_type)
    (s : State) : State :=
  log (.LsStartStopAdvertise enable wl addr) s

/-- `TimerInit(count, buffer)`: hands the timer store to the SDK; no timer is
outstanding afterwards. -/
def TimerInit (count : Nat) (s : State) : State :=
  { log (.TimerInit count) s with timers := [] }

/-- The C statement `data_b[i] = v` for a `uint8` array. -/
def writeByte (i : Nat) (v : Int) (s : State) : State :=
  { s with data_b := s.data_b.set i (toUInt8 v) }

/-! ## The functions of `main.c` -/

/-- `advUpdate`: update advertising data. -/
def advUpdate (s : State) : State :=
  let s1 := LsStoreAdvScanData 0 .ad_src_advertise s
  let s2 := LsStoreAdvScanData 26 .ad_src_advertise s1
  LsStartStopAdvertise true .whitelist_disabled .ls_addr_type_public s2

/-- `startTimer`: the timer handler.  `temp >> 8` on the signed `temp` is the
arithmetic shift (the quotient by 256 rounded down); the battery expression is
evaluated on integers and then converted to `int16`, which gives the same value
whether `int` has 16 or 32 bits. -/
def startTimer (inp : TickInput) (id : Nat) (s : State) : State :=
  let (tId, s1) := TimerCreate inp.tId (1 * SECOND) true s
  if tId = TIMER_INVALID then
    Panic 0xfe s1
  else
    let (level, s2) := PioGet LED s1
    let s3 := PioSet LED (!level) s2
    let (t, s4) := ThermometerReadTemperature inp.temp s3
    let temp : Int := toInt16 t
    let s5 := writeByte 24 temp s4
    let s6 := writeByte 23 (temp >>> (8 : Nat)) s5
    let (v, s7) := BatteryReadVoltage inp.mV s6
    let bat : Int := toInt16 (((v / 10 : Nat) : Int) - 200)
    let s8 := writeByte 22 bat s7
    advUpdate s8

/-- `AppInit`.  A panic inside `startTimer` ends `AppInit` as well. -/
def AppInit (inp : TickInput) (s : State) : State :=
  let s := log (.PioSetMode LED .pio_mode_user) s
  let s := log (.PioSetDir LED true) s
  let s := log (.PioSetMode SENSOR .pio_mode_user) s
  let s := log (.PioSetDir SENSOR false) s
  let s := log (.PioSetPullModes (1 <<< SENSOR) .pio_mode_weak_pull_up) s
  let s := log (.PioSetEventMask (1 <<< SENSOR) .pio_event_mode_both) s
  let s := TimerInit MAX_TIMERS s
  let s := startTimer inp 0 s
  if s.halted.isSome then s
  else
    let s := log (.GapSetMode .gap_role_broadcaster .gap_mode_discover_no
      .gap_mode_connect_no .gap_mode_bond_no .gap_mode_security_unauthenticate) s
    let s := log .GapSetStaticAddress s
    let s := log (.GapSetAdvInterval (500 * MILLISECOND) (500 * MILLISECOND)) s
    let s := LsStoreAdvScanData 26 .ad_src_advertise s
    let s := log (.LsStartStopScan false .whitelist_disabled .ls_addr_type_public) s
    let s := LsStartStopAdvertise true .whitelist_disabled .ls_addr_type_public s
    log (.SleepModeChange .sleep_mode_deep) s

/-- `AppProcessSystemEvent`. -/
def AppProcessSystemEvent (id : sys_event_id) (s : State) : State :=
  if id = .sys_event_pio_changed then
    let (level, s1) := PioGet SENSOR s
    let s2 := writeByte 21 (if level then 1 else 0) s1
    advUpdate s2
  else s

/-! ## Event dispatch by the SDK -/

/-- Expiry of a one-shot timer: the timer stops being outstanding and its handler
`startTimer` runs with the timer id.  Without an outstanding timer nothing
fires. -/
def timerExpire (inp : TickInput) (s : State) : State :=
  match s.timers with
  | [] => s
  | t :: rest => startTimer inp t.id { s with timers := rest }

/-- The events the SDK delivers to the application. -/
inductive Event
  | appInit (inp : TickInput)
  | timerExpiry (inp : TickInput)
  | systemEvent (id : sys_event_id) (level : Bool)
  deriving DecidableEq, Repr

/-- One event, run to completion.  After `Panic` nothing is dispatched any more.
A system event is delivered with the input line at `level`. -/
def step (s : State) (e : Event) : State :=
  if s.halted.isSome then s
  else
    match e with
    | .appInit inp => AppInit inp s
    | .timerExpiry inp => timerExpire inp s
    | .systemEvent id level => AppProcessSystemEvent id { s with sensor := level }

def run (s : State) (evs : List Event) : State := evs.foldl step s

/-- A run of consecutive timer expiries. -/
def ticks (s : State) (inps : List TickInput) : State :=
  run s (inps.map Event.timerExpiry)

/-! ## Observers of the call trace -/

/-- The call `LsStoreAdvScanData(0, ...)`, which only `advUpdate` makes. -/
def isClear : SdkCall → Bool
  | .LsStoreAdvScanData 0 _ _ => true
  | _ => false

/-- The call `LsStoreAdvScanData(26, ...)`. -/
def isStoreFull : SdkCall → Bool
  | .LsStoreAdvScanData 26 _ _ => true
  | _ => false

/-- The call `LsStartStopAdvertise(TRUE, ...)`. -/
def isAdvertiseOn : SdkCall → Bool
  | .LsStartStopAdvertise true _ _ => true
  | _ => false

def isTimerCreate : SdkCall → Bool
  | .TimerCreate _ _ _ => true
  | _ => false

/-- A `TimerCreate` call for a relative delay of 1000 ms that created a timer. -/
def isTimerCreate1s : SdkCall → Bool
  | .TimerCreate delay true (some _) => delay == 1000 * MILLISECOND
  | _ => false

/-- A `PioSet` call on the LED pin. -/
def isLedSet : SdkCall → Bool
  | .PioSet pin _ => pin == LED
  | _ => false

def isThermometerRead : SdkCall → Bool
  | .ThermometerReadTemperature _ => true
  | _ => false

def isBatteryRead : SdkCall → Bool
  | .BatteryReadVoltage _ => true
  | _ => false

/-! ## The fixed part of the payload -/

/-- The fixed part of a payload: length 26, the 21 header bytes of `data_b` and
the trailer byte. -/
def Fixed (b : List Nat) : Prop :=
  b.length = 26 ∧ b.take 21 = data_b_init.take 21 ∧ b.drop 25 = data_b_init.drop 25

/-- A store call carries a payload with the fixed part intact. -/
def StoreFixed : SdkCall → Prop
  | .LsStoreAdvScanData _ d _ => Fixed d
  | _ => True

/-- Invariant of the payload and of everything handed to the radio stack. -/
def Inv (s : State) : Prop := Fixed s.data_b ∧ ∀ c ∈ s.trace, StoreFixed c

instance decidableFixed (b : List Nat) : Decidable (Fixed b) := by
  unfold Fixed
  infer_instance

instance decidableStoreFixed (c : SdkCall) : Decidable (StoreFixed c) := by
  cases c <;> unfold StoreFixed <;> infer_instance

instance decidableInv (s : State) : Decidable (Inv s) := by
  unfold Inv
  infer_instance

/-- The payload `startTimer` leaves behind when the timer was created: the three
writes of the handler, in its order. -/
def tickPayload (b : List Nat) (inp : TickInput) : List Nat :=
  ((b.set 24 (toUInt8 (toInt16 inp.temp))).set 23
    (toUInt8 (toInt16 inp.temp >>> (8 : Nat)))).set 22
    (toUInt8 (toInt16 (((inp.mV / 10 : Nat) : Int) - 200)))

/-! ## Auxiliary lemmas -/

theorem startTimer_ok (inp : TickInput) (id : Nat) (s : State) (i : Nat)
    (h : inp.tId = some i) :
    startTimer inp id s =
      { data_b := tickPayload s.data_b inp,
        led := !s.led,
        sensor := s.sensor,
        timers := s.timers ++ [{ id := i, delay := 1 * SECOND }],
        halted := s.halted,
        trace := s.trace ++
          [.TimerCreate (1 * SECOND) true (some i), .PioGet LED s.led, .PioSet LED (!s.led),
           .ThermometerReadTemperature inp.temp, .BatteryReadVoltage inp.mV,
           .LsStoreAdvScanData 0 (tickPayload s.data_b inp) .ad_src_advertise,
           .LsStoreAdvScanData 26 (tickPayload s.data_b inp) .ad_src_advertise,
           .LsStartStopAdvertise true .whitelist_disabled .ls_addr_type_public] } := by
  simp [startTimer, TimerCreate, h, TIMER_INVALID, PioGet, PioSet, ThermometerReadTemperature,
    BatteryReadVoltage, writeByte, advUpdate, LsStoreAdvScanData, LsStartStopAdvertise, log, LED,
    tickPayload]

theorem startTimer_fail (inp : TickInput) (id : Nat) (s : State) (h : inp.tId = none) :
    startTimer inp id s =
      { s with halted := some 0xfe,
               trace := s.trace ++ [.TimerCreate (1 * SECOND) true none, .Panic 0xfe] } := by
  simp [startTimer, TimerCreate, h, TIMER_INVALID, Panic, log]

theorem exists_id_of_ne_invalid {o : Option Nat} (h : o ≠ TIMER_INVALID) : ∃ i, o = some i := by
  cases o with
  | none => exact absurd rfl h
  | some i => exact ⟨i, rfl⟩

theorem tickPayload_length (b : List Nat) (inp : TickInput) :
    (tickPayload b inp).length = b.length := by
  simp [tickPayload]

theorem tickPayload_take (b : List Nat) (inp : TickInput) :
    (tickPayload b inp).take 22 = b.take 22 := by
  apply List.ext_getElem?
  intro n
  simp only [tickPayload, List.getElem?_take, List.getElem?_set, List.length_set]
  by_cases hn : n < 22
  · have h1 : ¬ (22 = n) := by omega
    have h2 : ¬ (23 = n) := by omega
    have h3 : ¬ (24 = n) := by omega
    simp [hn, h1, h2, h3]
  · simp [hn]

theorem tickPayload_drop (b : List Nat) (inp : TickInput) :
    (tickPayload b inp).drop 25 = b.drop 25 := by
  simp [tickPayload, List.drop_set]

theorem toUInt8_toInt16 (t : Int) : toUInt8 (toInt16 t) = (t % 256).toNat := by
  unfold toUInt8 toInt16
  congr 1
  omega

theorem toUInt8_toInt16_shift (t : Int) :
    toUInt8 (toInt16 t >>> (8 : Nat)) = (t / 256 % 256).toNat := by
  unfold toUInt8 toInt16
  rw [Int.shiftRight_eq_div_pow]
  congr 1
  omega

theorem tickPayload_get22 (b : List Nat) (inp : TickInput) (h : 22 < b.length) :
    (tickPayload b inp)[22]? = some (toUInt8 (toInt16 (((inp.mV / 10 : Nat) : Int) - 200))) := by
  simp [tickPayload, List.getElem?_set, h]

theorem tickPayload_get23 (b : List Nat) (inp : TickInput) (h : 23 < b.length) :
    (tickPayload b inp)[23]? = some (toUInt8 (toInt16 inp.temp >>> (8 : Nat))) := by
  simp [tickPayload, List.getElem?_set, h]

theorem tickPayload_get24 (b : List Nat) (inp : TickInput) (h : 24 < b.length) :
    (tickPayload b inp)[24]? = some (toUInt8 (toInt16 inp.temp)) := by
  simp [tickPayload, List.getElem?_set, h]


/-! ## Verified properties -/

/-- C1: a timer tick with a successful timer creation keeps the length 26 of the
payload and every byte at offsets 0-21 and 25; only offsets 22, 23 and 24 can
change. -/
theorem startTimer_frame (s : State) (inp : TickInput) (id : Nat)
    (hlen : s.data_b.length = 26) (hok : inp.tId ≠ TIMER_INVALID) :
    (startTimer inp id s).data_b.length = 26 ∧
    (startTimer inp id s).data_b.take 22 = s.data_b.take 22 ∧
    (startTimer inp id s).data_b.drop 25 = s.data_b.drop 25 ∧
    (startTimer inp id s).data_b[21]? = s.data_b[21]? ∧
    ∀ n, n = 22 ∨ n = 23 ∨ n = 24 ∨ (startTimer inp id s).data_b[n]? = s.data_b[n]? := by
  obtain ⟨i, hi⟩ := exists_id_of_ne_invalid hok
  rw [startTimer_ok inp id s i hi]
  refine ⟨by simp [tickPayload_length, hlen], tickPayload_take _ _, tickPayload_drop _ _, ?_, ?_⟩
  · simp [tickPayload, List.getElem?_set]
  · intro n
    by_cases h22 : n = 22
    · exact Or.inl h22
    by_cases h23 : n = 23
    · exact Or.inr (Or.inl h23)
    by_cases h24 : n = 24
    · exact Or.inr (Or.inr (Or.inl h24))
    refine Or.inr (Or.inr (Or.inr ?_))
    have h1 : ¬ (22 = n) := fun h => h22 h.symm
    have h2 : ¬ (23 = n) := fun h => h23 h.symm
    have h3 : ¬ (24 = n) := fun h => h24 h.symm
    simp [tickPayload, List.getElem?_set, h1, h2, h3]

theorem startTimer_frame_witness :
    (initState false false).data_b.length = 26 ∧
    (TickInput.mk (some 1) (-300) 3300).tId ≠ TIMER_INVALID ∧
    (startTimer ⟨some 1, -300, 3300⟩ 0 (initState false false)).data_b.take 22
      = (initState false false).data_b.take 22 :=
  ⟨by decide, by decide,
   (startTimer_frame (initState false false) ⟨some 1, -300, 3300⟩ 0 (by decide) (by decide)).2.1⟩

theorem bytes_join (t : Int) :
    ((t / 256 % 256).toNat <<< 8 ||| (t % 256).toNat) = (t % 65536).toNat := by
  have hb : (t % 256).toNat < 2 ^ 8 := by omega
  rw [Nat.shiftLeft_eq, Nat.mul_comm, ← Nat.mul_add_lt_is_or hb]
  omega

theorem bytes_split (t : Int) :
    (t / 256 % 256).toNat = (t % 65536).toNat >>> 8 ∧
    (t % 256).toNat = (t % 65536).toNat &&& 0xFF := by
  constructor
  · rw [Nat.shiftRight_eq_div_pow]; omega
  · have := Nat.and_pow_two_sub_one_eq_mod (t % 65536).toNat 8
    simp only [Nat.reducePow, Nat.add_one_sub_one] at this
    rw [show (0xFF : Nat) = 255 from rfl, this]; omega

/-- C2: after a timer tick that sampled the temperature `t`, offset 23 holds the
high-order byte of `t` (`t >> 8` truncated to 8 bits), offset 24 the low-order
byte (`t & 0xFF`), both below 256, and `(buf[23] << 8) | buf[24]` is `t mod 2^16`;
this holds for every integer `t`, so for every signed 16-bit one, negative
values included. -/
theorem startTimer_temperature_big_endian (s : State) (inp : TickInput) (id : Nat)
    (hlen : s.data_b.length = 26) (hok : inp.tId ≠ TIMER_INVALID) :
    (startTimer inp id s).data_b[23]? = some ((inp.temp >>> (8 : Nat)) % 256).toNat ∧
    (startTimer inp id s).data_b[24]? = some (inp.temp % 256).toNat ∧
    ((inp.temp >>> (8 : Nat)) % 256).toNat < 256 ∧
    (inp.temp % 256).toNat < 256 ∧
    (((inp.temp >>> (8 : Nat)) % 256).toNat <<< 8 ||| (inp.temp % 256).toNat)
      = (inp.temp % 65536).toNat ∧
    ((inp.temp >>> (8 : Nat)) % 256).toNat = (inp.temp % 65536).toNat >>> 8 ∧
    (inp.temp % 256).toNat = (inp.temp % 65536).toNat &&& 0xFF := by
  obtain ⟨i, hi⟩ := exists_id_of_ne_invalid hok
  rw [startTimer_ok inp id s i hi]
  have hs : inp.temp >>> (8 : Nat) = inp.temp / 256 := by
    rw [Int.shiftRight_eq_div_pow]; rfl
  rw [hs]
  refine ⟨?_, ?_, by omega, by omega, bytes_join _, (bytes_split _).1, (bytes_split _).2⟩
  · rw [tickPayload_get23 _ _ (by omega), toUInt8_toInt16_shift]
  · rw [tickPayload_get24 _ _ (by omega), toUInt8_toInt16]

theorem startTimer_temperature_big_endian_witness :
    (initState false false).data_b.length = 26 ∧
    (TickInput.mk (some 1) (-300) 3300).tId ≠ TIMER_INVALID ∧
    (startTimer ⟨some 1, -300, 3300⟩ 0 (initState false false)).data_b[23]? = some 0xFE ∧
    (startTimer ⟨some 1, -300, 3300⟩ 0 (initState false false)).data_b[24]? = some 0xD4 ∧
    (0xFE <<< 8 ||| 0xD4) = ((-300 : Int) % 65536).toNat := by
  have h := startTimer_temperature_big_endian (initState false false) ⟨some 1, -300, 3300⟩ 0
    (by decide) (by decide)
  exact ⟨by decide, by decide, h.1, h.2.1, by decide⟩


/-- C3: after a timer tick that read the battery voltage `mV`, offset 22 holds
`(mV / 10 - 200) mod 256` with truncating division and no clamping.  For
`2000 <= mV <= 4559` this is `mV / 10 - 200` itself (3300 mV gives 130), 5200 mV
gives 64, and below 2000 mV the byte wraps to `mV / 10 + 56` (1990 mV gives
255). -/
theorem startTimer_battery_byte (s : State) (inp : TickInput) (id : Nat)
    (hlen : s.data_b.length = 26) (hok : inp.tId ≠ TIMER_INVALID) :
    (startTimer inp id s).data_b[22]?
      = some (((((inp.mV / 10 : Nat) : Int) - 200) % 256).toNat) ∧
    (2000 ≤ inp.mV → inp.mV ≤ 4559 →
      (startTimer inp id s).data_b[22]? = some (inp.mV / 10 - 200)) ∧
    (inp.mV < 2000 → (startTimer inp id s).data_b[22]? = some (inp.mV / 10 + 56)) ∧
    (inp.mV = 3300 → (startTimer inp id s).data_b[22]? = some 130) ∧
    (inp.mV = 5200 → (startTimer inp id s).data_b[22]? = some 64) ∧
    (inp.mV = 1990 → (startTimer inp id s).data_b[22]? = some 255) := by
  obtain ⟨i, hi⟩ := exists_id_of_ne_invalid hok
  rw [startTimer_ok inp id s i hi]
  simp only [tickPayload_get22 _ _ (show 22 < s.data_b.length by omega), toUInt8_toInt16,
    Option.some.injEq]
  refine ⟨trivial, ?_, ?_, ?_, ?_, ?_⟩ <;> intros <;> omega

theorem startTimer_battery_byte_witness :
    (initState false false).data_b.length = 26 ∧
    (TickInput.mk (some 1) 2150 5200).tId ≠ TIMER_INVALID ∧
    (startTimer ⟨some 1, 2150, 5200⟩ 7 (initState false false)).data_b[22]? = some 64 :=
  ⟨by decide, by decide,
   (startTimer_battery_byte (initState false false) ⟨some 1, 2150, 5200⟩ 7
      (by decide) (by decide)).2.2.2.2.1 rfl⟩

/-- C4: `AppProcessSystemEvent` with `sys_event_pio_changed` writes the level of
the input line (0 or 1) to offset 21 and nothing else into the payload, leaves
the timers, the LED and the halt flag alone, and makes exactly four SDK calls:
the pin read and the three calls of one publish, both stores carrying the
payload with the new offset 21. -/
theorem AppProcessSystemEvent_pio_changed (s : State) (hlen : s.data_b.length = 26) :
    (AppProcessSystemEvent .sys_event_pio_changed s).data_b
      = s.data_b.set 21 (if s.sensor then 1 else 0) ∧
    (AppProcessSystemEvent .sys_event_pio_changed s).data_b[21]?
      = some (if s.sensor then 1 else 0) ∧
    (AppProcessSystemEvent .sys_event_pio_changed s).data_b.length = 26 ∧
    (AppProcessSystemEvent .sys_event_pio_changed s).data_b.take 21 = s.data_b.take 21 ∧
    (AppProcessSystemEvent .sys_event_pio_changed s).data_b.drop 22 = s.data_b.drop 22 ∧
    (AppProcessSystemEvent .sys_event_pio_changed s).timers = s.timers ∧
    (AppProcessSystemEvent .sys_event_pio_changed s).led = s.led ∧
    (AppProcessSystemEvent .sys_event_pio_changed s).halted = s.halted ∧
    (AppProcessSystemEvent .sys_event_pio_changed s).trace = s.trace ++
      [.PioGet SENSOR s.sensor,
       .LsStoreAdvScanData 0 (s.data_b.set 21 (if s.sensor then 1 else 0)) .ad_src_advertise,
       .LsStoreAdvScanData 26 (s.data_b.set 21 (if s.sensor then 1 else 0)) .ad_src_advertise,
       .LsStartStopAdvertise true .whitelist_disabled .ls_addr_type_public] ∧
    ((s.data_b.set 21 (if s.sensor then 1 else 0)).take 26)[21]?
      = some (if s.sensor then 1 else 0) := by
  have hb : toUInt8 (if s.sensor = true then 1 else 0) = if s.sensor = true then 1 else 0 := by
    cases s.sensor <;> simp [toUInt8]
  simp [AppProcessSystemEvent, PioGet, writeByte, advUpdate, LsStoreAdvScanData,
    LsStartStopAdvertise, log, LED, SENSOR, hb, hlen, List.getElem?_set, List.drop_set,
    List.getElem?_take]
  apply List.ext_getElem?
  intro n
  simp only [List.getElem?_take, List.getElem?_set]
  by_cases hn : n < 21
  · have h1 : ¬ (21 = n) := by omega
    simp [hn, h1]
  · simp [hn]

theorem AppProcessSystemEvent_pio_changed_witness :
    (initState false true).data_b.length = 26 ∧
    (AppProcessSystemEvent .sys_event_pio_changed (initState false true)).data_b[21]? = some 1 :=
  ⟨by decide, (AppProcessSystemEvent_pio_changed (initState false true) (by decide)).2.1⟩

/-- C6: every call of `advUpdate` appends exactly three SDK calls, in this order:
a store of length 0, a store of length 26 of the current payload, and the start
of advertising with the whitelist disabled and the public address type; nothing
else in the state changes, the payload included, and 26 is the length of
`data_b`. -/
theorem advUpdate_sequence (s : State) :
    (advUpdate s).trace = s.trace ++
      [.LsStoreAdvScanData 0 s.data_b .ad_src_advertise,
       .LsStoreAdvScanData 26 s.data_b .ad_src_advertise,
       .LsStartStopAdvertise true .whitelist_disabled .ls_addr_type_public] ∧
    (advUpdate s).data_b = s.data_b ∧
    advUpdate s = { s with trace := (advUpdate s).trace } ∧
    data_b_init.length = 26 := by
  simp [advUpdate, LsStoreAdvScanData, LsStartStopAdvertise, log, data_b_init]

/-- C10: two successful timer ticks that sample the same temperature and battery
voltage leave the payload that the first of them left, for every payload and
whatever the timer ids are; the LED level after the second tick differs from
the level after the first. -/
theorem startTimer_idempotent (s : State) (inp1 inp2 : TickInput) (id1 id2 : Nat)
    (hok1 : inp1.tId ≠ TIMER_INVALID) (hok2 : inp2.tId ≠ TIMER_INVALID)
    (htemp : inp2.temp = inp1.temp) (hmV : inp2.mV = inp1.mV) :
    (startTimer inp2 id2 (startTimer inp1 id1 s)).data_b = (startTimer inp1 id1 s).data_b ∧
    (startTimer inp2 id2 (startTimer inp1 id1 s)).led ≠ (startTimer inp1 id1 s).led := by
  obtain ⟨i1, hi1⟩ := exists_id_of_ne_invalid hok1
  obtain ⟨i2, hi2⟩ := exists_id_of_ne_invalid hok2
  rw [startTimer_ok inp2 id2 _ i2 hi2, startTimer_ok inp1 id1 s i1 hi1]
  refine ⟨?_, by simp⟩
  simp only [tickPayload, htemp, hmV]
  apply List.ext_getElem?
  intro n
  simp only [List.getElem?_set, List.length_set]
  by_cases h22 : 22 = n
  · simp [h22]
  by_cases h23 : 23 = n
  · simp [h23]
  by_cases h24 : 24 = n
  · simp [h24]
  simp [h22, h23, h24]

theorem startTimer_idempotent_witness :
    (startTimer ⟨some 2, -300, 3300⟩ 1
        (startTimer ⟨some 1, -300, 3300⟩ 0 (initState false false))).data_b
      = (startTimer ⟨some 1, -300, 3300⟩ 0 (initState false false)).data_b :=
  (startTimer_idempotent (initState false false) ⟨some 1, -300, 3300⟩ ⟨some 2, -300, 3300⟩ 0 1
    (by decide) (by decide) rfl rfl).1

theorem fixed_set (b : List Nat) (i v : Nat) (h : Fixed b) (h1 : 21 ≤ i) (h2 : i < 25) :
    Fixed (b.set i v) := by
  obtain ⟨hl, ht, hd⟩ := h
  refine ⟨by simp [hl], ?_, ?_⟩
  · rw [← ht]
    apply List.ext_getElem?
    intro n
    simp only [List.getElem?_take, List.getElem?_set]
    by_cases hn : n < 21
    · have : ¬ (i = n) := by omega
      simp [hn, this]
    · simp [hn]
  · rw [← hd, List.drop_set]
    simp [h2]

theorem fixed_tickPayload (b : List Nat) (inp : TickInput) (h : Fixed b) :
    Fixed (tickPayload b inp) := by
  unfold tickPayload
  exact fixed_set _ _ _ (fixed_set _ _ _ (fixed_set _ _ _ h (by omega) (by omega))
    (by omega) (by omega)) (by omega) (by omega)

theorem inv_log (c : SdkCall) (s : State) (h : Inv s) (hc : StoreFixed c) : Inv (log c s) := by
  refine ⟨h.1, ?_⟩
  intro x hx
  simp only [log, List.mem_append, List.mem_singleton] at hx
  rcases hx with hx | hx
  · exact h.2 x hx
  · exact hx ▸ hc

theorem inv_store (len : Nat) (src : ad_src) (s : State) (h : Inv s) :
    Inv (LsStoreAdvScanData len src s) :=
  inv_log _ s h h.1

theorem inv_advUpdate (s : State) (h : Inv s) : Inv (advUpdate s) := by
  unfold advUpdate LsStartStopAdvertise
  exact inv_log _ _ (inv_store _ _ _ (inv_store _ _ _ h)) trivial

theorem inv_writeByte (i : Nat) (v : Int) (s : State) (h : Inv s) (h1 : 21 ≤ i) (h2 : i < 25) :
    Inv (writeByte i v s) :=
  ⟨fixed_set _ _ _ h.1 h1 h2, h.2⟩

theorem inv_timers (s : State) (ts : List Timer) (h : Inv s) : Inv { s with timers := ts } := h

theorem inv_startTimer (inp : TickInput) (id : Nat) (s : State) (h : Inv s) :
    Inv (startTimer inp id s) := by
  cases hi : inp.tId with
  | none =>
    rw [startTimer_fail inp id s hi]
    refine ⟨h.1, ?_⟩
    intro x hx
    simp only [List.mem_append, List.mem_cons, List.mem_singleton, List.not_mem_nil,
      or_false] at hx
    rcases hx with hx | hx | hx
    · exact h.2 x hx
    · exact hx ▸ trivial
    · exact hx ▸ trivial
  | some i =>
    rw [startTimer_ok inp id s i hi]
    have hf := fixed_tickPayload s.data_b inp h.1
    refine ⟨hf, ?_⟩
    intro x hx
    simp only [List.mem_append, List.mem_cons, List.mem_singleton, List.not_mem_nil,
      or_false] at hx
    rcases hx with hx | hx | hx | hx | hx | hx | hx | hx | hx
    · exact h.2 x hx
    all_goals first | exact hx ▸ trivial | exact hx ▸ hf

theorem inv_AppInit (inp : TickInput) (s : State) (h : Inv s) : Inv (AppInit inp s) := by
  unfold AppInit
  have h1 : Inv (TimerInit MAX_TIMERS
      (log (.PioSetEventMask (1 <<< SENSOR) .pio_event_mode_both)
      (log (.PioSetPullModes (1 <<< SENSOR) .pio_mode_weak_pull_up)
      (log (.PioSetDir SENSOR false) (log (.PioSetMode SENSOR .pio_mode_user)
      (log (.PioSetDir LED true) (log (.PioSetMode LED .pio_mode_user) s))))))) := by
    unfold TimerInit
    exact inv_timers _ _ (inv_log _ _ (inv_log _ _ (inv_log _ _ (inv_log _ _ (inv_log _ _
      (inv_log _ _ (inv_log _ _ h trivial) trivial) trivial) trivial) trivial) trivial) trivial)
  have h2 := inv_startTimer inp 0 _ h1
  simp only []
  split
  · exact h2
  · unfold LsStartStopAdvertise
    exact inv_log _ _ (inv_log _ _ (inv_log _ _ (inv_store _ _ _ (inv_log _ _ (inv_log _ _
      (inv_log _ _ h2 trivial) trivial) trivial)) trivial) trivial) trivial

theorem inv_AppProcessSystemEvent (id : sys_event_id) (s : State) (h : Inv s) :
    Inv (AppProcessSystemEvent id s) := by
  unfold AppProcessSystemEvent
  split
  · simp only [PioGet]
    exact inv_advUpdate _ (inv_writeByte _ _ _ (inv_log _ _ h trivial) (by omega) (by omega))
  · exact h

theorem inv_timerExpire (inp : TickInput) (s : State) (h : Inv s) :
    Inv (timerExpire inp s) := by
  unfold timerExpire
  split
  · exact h
  · exact inv_startTimer _ _ _ (inv_timers _ _ h)

theorem inv_step (s : State) (e : Event) (h : Inv s) : Inv (step s e) := by
  unfold step
  split
  · exact h
  · cases e with
    | appInit inp => exact inv_AppInit inp s h
    | timerExpiry inp => exact inv_timerExpire inp s h
    | systemEvent id level => exact inv_AppProcessSystemEvent id _ h

theorem inv_run (evs : List Event) (s : State) (h : Inv s) : Inv (run s evs) := by
  induction evs generalizing s with
  | nil => exact h
  | cons e rest ih => exact ih (step s e) (inv_step s e h)

theorem fixed_explicit (b : List Nat) (h : Fixed b) :
    b.length = 26 ∧
    b.take 21 = [0xFF, 0x4C, 0x00, 0x02, 0x15, 0x01, 0x02, 0x03, 0x04, 0x05, 0x06, 0x07,
      0x08, 0x09, 0x0A, 0x0B, 0x0C, 0x0D, 0x0E, 0x0F, 0x10] ∧
    b[25]? = some 0x30 := by
  obtain ⟨hl, ht, hd⟩ := h
  refine ⟨hl, by rw [ht]; rfl, ?_⟩
  have : (b.drop 25)[0]? = some 0x30 := by rw [hd]; rfl
  simpa [List.getElem?_drop] using this

/-- C5: from the initial payload `data_b` (with any pin levels and any
outstanding timers), after every finite sequence of start-up, timer and system
events, with arbitrary sensor readings, timer creation results, event ids and
pin levels, the payload has length 26, offsets 0-20 hold 0xFF, 0x4C, 0x00, 0x02,
0x15, 0x01..0x10 and offset 25 holds 0x30; the same holds for the payload
carried by every store call made so far. -/
theorem fixed_fields_invariant (led sensor : Bool) (timers : List Timer) (evs : List Event) :
    (run { initState led sensor with timers := timers } evs).data_b.length = 26 ∧
    (run { initState led sensor with timers := timers } evs).data_b.take 21 =
      [0xFF, 0x4C, 0x00, 0x02, 0x15, 0x01, 0x02, 0x03, 0x04, 0x05, 0x06, 0x07,
       0x08, 0x09, 0x0A, 0x0B, 0x0C, 0x0D, 0x0E, 0x0F, 0x10] ∧
    (run { initState led sensor with timers := timers } evs).data_b[25]? = some 0x30 ∧
    ∀ len d src,
      SdkCall.LsStoreAdvScanData len d src
          ∈ (run { initState led sensor with timers := timers } evs).trace →
        d.length = 26 ∧
        d.take 21 = [0xFF, 0x4C, 0x00, 0x02, 0x15, 0x01, 0x02, 0x03, 0x04, 0x05, 0x06, 0x07,
          0x08, 0x09, 0x0A, 0x0B, 0x0C, 0x0D, 0x0E, 0x0F, 0x10] ∧
        d[25]? = some 0x30 := by
  have h0 : Inv { initState led sensor with timers := timers } := by
    refine ⟨⟨rfl, rfl, rfl⟩, ?_⟩
    intro c hc
    simp [initState] at hc
  have h := inv_run evs _ h0
  obtain ⟨h1, h2, h3⟩ := fixed_explicit _ h.1
  refine ⟨h1, h2, h3, ?_⟩
  intro len d src hmem
  exact fixed_explicit d (h.2 _ hmem)

theorem run_halted (evs : List Event) (s : State) (h : s.halted.isSome = true) :
    run s evs = s := by
  induction evs with
  | nil => rfl
  | cons e rest ih =>
    have hs : step s e = s := by simp [step, h]
    show run (step s e) rest = s
    rw [hs]
    exact ih

/-- C7: when `TimerCreate` returns `TIMER_INVALID`, `startTimer` ends in
`Panic(0xfe)` after exactly two SDK calls, the failed `TimerCreate` and the
`Panic`: the payload, the LED, the input line and the timers are as before, no
pin is set, no sensor is read and nothing is published.  With at most
`MAX_TIMERS` timers outstanding before the expiry none is outstanding
afterwards, and no later event changes the halted state.  When the creation
succeeds, `TimerCreate` is the first of the eight SDK calls of the tick, before
the LED toggle, the two sensor reads and the publish, whose stores carry the
bytes written from the readings. -/
theorem startTimer_fatal (s : State) (inp : TickInput) (id : Nat)
    (hfail : inp.tId = TIMER_INVALID) (hslot : s.timers.length ≤ MAX_TIMERS) :
    (startTimer inp id s).halted = some 0xfe ∧
    (startTimer inp id s).data_b = s.data_b ∧
    (startTimer inp id s).led = s.led ∧
    (startTimer inp id s).sensor = s.sensor ∧
    (startTimer inp id s).timers = s.timers ∧
    (startTimer inp id s).trace
      = s.trace ++ [.TimerCreate (1 * SECOND) true TIMER_INVALID, .Panic 0xfe] ∧
    (timerExpire inp s).timers = [] ∧
    (timerExpire inp s).data_b = s.data_b ∧
    (∀ evs, run (startTimer inp id s) evs = startTimer inp id s) ∧
    (∀ i temp mV, (startTimer ⟨some i, temp, mV⟩ id s).trace = s.trace ++
      [.TimerCreate (1 * SECOND) true (some i), .PioGet LED s.led, .PioSet LED (!s.led),
       .ThermometerReadTemperature temp, .BatteryReadVoltage mV,
       .LsStoreAdvScanData 0 (startTimer ⟨some i, temp, mV⟩ id s).data_b .ad_src_advertise,
       .LsStoreAdvScanData 26 (startTimer ⟨some i, temp, mV⟩ id s).data_b .ad_src_advertise,
       .LsStartStopAdvertise true .whitelist_disabled .ls_addr_type_public]) := by
  have hnone : inp.tId = none := hfail
  refine ⟨?_, ?_, ?_, ?_, ?_, ?_, ?_, ?_, ?_, ?_⟩
  · rw [startTimer_fail inp id s hnone]
  · rw [startTimer_fail inp id s hnone]
  · rw [startTimer_fail inp id s hnone]
  · rw [startTimer_fail inp id s hnone]
  · rw [startTimer_fail inp id s hnone]
  · rw [startTimer_fail inp id s hnone]; rfl
  · unfold timerExpire
    cases ht : s.timers with
    | nil => simp [ht]
    | cons t rest =>
      have hr : rest = [] := by
        rw [ht] at hslot
        simp only [MAX_TIMERS, List.length_cons] at hslot
        exact List.length_eq_zero.mp (by omega)
      simp only []
      rw [startTimer_fail inp t.id _ hnone, hr]
  · unfold timerExpire
    split
    · rfl
    · rw [startTimer_fail inp _ _ hnone]
  · intro evs
    apply run_halted
    rw [startTimer_fail inp id s hnone]
    rfl
  · intro i temp mV
    rw [startTimer_ok ⟨some i, temp, mV⟩ id s i rfl]

theorem startTimer_fatal_witness :
    (TickInput.mk none 215 3300).tId = TIMER_INVALID ∧
    (startTimer ⟨some 4, 215, 3300⟩ 0 (initState true false)).timers.length ≤ MAX_TIMERS ∧
    (timerExpire ⟨none, 215, 3300⟩
      (startTimer ⟨some 4, 215, 3300⟩ 0 (initState true false))).timers = [] :=
  ⟨rfl, by decide,
   (startTimer_fatal (startTimer ⟨some 4, 215, 3300⟩ 0 (initState true false))
      ⟨none, 215, 3300⟩ 4 rfl (by decide)).2.2.2.2.2.2.1⟩

theorem step_timerExpiry_ok (s : State) (inp : TickInput) (t : Timer) (i : Nat)
    (hrun : s.halted = none) (hone : s.timers = [t]) (hi : inp.tId = some i) :
    step s (.timerExpiry inp) =
      { data_b := tickPayload s.data_b inp,
        led := !s.led,
        sensor := s.sensor,
        timers := [{ id := i, delay := 1 * SECOND }],
        halted := none,
        trace := s.trace ++
          [.TimerCreate (1 * SECOND) true (some i), .PioGet LED s.led, .PioSet LED (!s.led),
           .ThermometerReadTemperature inp.temp, .BatteryReadVoltage inp.mV,
           .LsStoreAdvScanData 0 (tickPayload s.data_b inp) .ad_src_advertise,
           .LsStoreAdvScanData 26 (tickPayload s.data_b inp) .ad_src_advertise,
           .LsStartStopAdvertise true .whitelist_disabled .ls_addr_type_public] } := by
  simp only [step, hrun, Option.isSome_none, Bool.false_eq_true, if_false, timerExpire, hone]
  rw [startTimer_ok inp t.id _ i hi]
  simp [hrun]

/-- The observations of the claim on timer cadence, for one run of ticks. -/
theorem ticks_counts (inps : List TickInput) (s : State)
    (hrun : s.halted = none) (hone : s.timers.length = 1)
    (hok : ∀ inp ∈ inps, inp.tId ≠ TIMER_INVALID) :
    (ticks s inps).trace.countP isClear = s.trace.countP isClear + inps.length ∧
    (ticks s inps).trace.countP isStoreFull = s.trace.countP isStoreFull + inps.length ∧
    (ticks s inps).trace.countP isAdvertiseOn = s.trace.countP isAdvertiseOn + inps.length ∧
    (ticks s inps).trace.countP isTimerCreate = s.trace.countP isTimerCreate + inps.length ∧
    (ticks s inps).trace.countP isTimerCreate1s
      = s.trace.countP isTimerCreate1s + inps.length ∧
    (ticks s inps).trace.countP isLedSet = s.trace.countP isLedSet + inps.length ∧
    (ticks s inps).led = Nat.iterate (fun b => !b) inps.length s.led ∧
    (ticks s inps).timers.length = 1 ∧
    (ticks s inps).halted = none := by
  induction inps generalizing s with
  | nil => simp [ticks, run, hone, hrun]
  | cons inp rest ih =>
    obtain ⟨i, hi⟩ := exists_id_of_ne_invalid (hok inp (List.mem_cons_self _ _))
    obtain ⟨t, ht⟩ := List.length_eq_one.mp hone
    have hstep := step_timerExpiry_ok s inp t i hrun ht hi
    have hrest : ticks s (inp :: rest) = ticks (step s (.timerExpiry inp)) rest := rfl
    have ih1 := ih (step s (.timerExpiry inp)) (by rw [hstep]) (by rw [hstep]; rfl)
      (fun x hx => hok x (List.mem_cons_of_mem _ hx))
    rw [hrest]
    obtain ⟨h1, h2, h3, h4, h5, h6, h7, h8, h9⟩ := ih1
    rw [h1, h2, h3, h4, h5, h6, h7]
    refine ⟨?_, ?_, ?_, ?_, ?_, ?_, ?_, h8, h9⟩
    all_goals rw [hstep]
    all_goals simp [List.countP_append, List.countP_cons, isClear, isStoreFull, isAdvertiseOn,
      isTimerCreate, isTimerCreate1s, isLedSet, SECOND, LED]
    all_goals omega

/-- C8: in a run of `N` consecutive timer expiries, each with a successful timer
creation, started with one outstanding timer, the run makes exactly `N`
publishes (`N` stores of length 0, `N` stores of length 26, `N` starts of
advertising), exactly `N` calls of `TimerCreate`, all `N` of them creating a
timer for a relative delay of 1000 ms, and exactly `N` `PioSet` calls on the LED, whose level ends as
the initial level negated `N` times; exactly one timer is outstanding after each
tick of the run. -/
theorem ticks_cadence (s : State) (inps : List TickInput)
    (hrun : s.halted = none) (hone : s.timers.length = 1)
    (hok : ∀ inp ∈ inps, inp.tId ≠ TIMER_INVALID) :
    (ticks s inps).trace.countP isClear = s.trace.countP isClear + inps.length ∧
    (ticks s inps).trace.countP isStoreFull = s.trace.countP isStoreFull + inps.length ∧
    (ticks s inps).trace.countP isAdvertiseOn = s.trace.countP isAdvertiseOn + inps.length ∧
    (ticks s inps).trace.countP isTimerCreate = s.trace.countP isTimerCreate + inps.length ∧
    (ticks s inps).trace.countP isTimerCreate1s
      = s.trace.countP isTimerCreate1s + inps.length ∧
    (ticks s inps).trace.countP isLedSet = s.trace.countP isLedSet + inps.length ∧
    (ticks s inps).led = Nat.iterate (fun b => !b) inps.length s.led ∧
    (∀ k, (ticks s (inps.take k)).timers.length = 1) ∧
    (ticks s inps).halted = none ∧
    1000 * MILLISECOND = 1 * SECOND ∧ MAX_TIMERS = 1 := by
  obtain ⟨h1, h2, h3, h4, h5, h6, h7, _, h9⟩ := ticks_counts inps s hrun hone hok
  refine ⟨h1, h2, h3, h4, h5, h6, h7, ?_, h9, by decide, rfl⟩
  intro k
  exact (ticks_counts (inps.take k) s hrun hone
    (fun x hx => hok x (List.mem_of_mem_take hx))).2.2.2.2.2.2.2.1

theorem ticks_cadence_witness :
    (AppInit ⟨some 1, 215, 3300⟩ (initState false true)).halted = none ∧
    (AppInit ⟨some 1, 215, 3300⟩ (initState false true)).timers.length = 1 ∧
    (ticks (AppInit ⟨some 1, 215, 3300⟩ (initState false true))
        [⟨some 2, 216, 3290⟩, ⟨some 3, -5, 3280⟩, ⟨some 4, -6, 3270⟩]).led
      = Nat.iterate (fun b => !b) 3 (AppInit ⟨some 1, 215, 3300⟩ (initState false true)).led :=
  ⟨by decide, by decide,
   (ticks_cadence (AppInit ⟨some 1, 215, 3300⟩ (initState false true))
      [⟨some 2, 216, 3290⟩, ⟨some 3, -5, 3280⟩, ⟨some 4, -6, 3270⟩]
      (by decide) (by decide) (by decide)).2.2.2.2.2.2.1⟩

/-- C9 fails on the code: `AppInit` calls `startTimer(0)`, so with the timer
created and the readings 0x1234 and 3300 mV the state after `AppInit` has one
thermometer read, one battery read, the bytes 130, 0x12, 0x34 at offsets 22-24,
the LED toggled and one publish with its length-0 store. -/
theorem AppInit_not_idle :
    ¬ ((AppInit ⟨some 1, 0x1234, 3300⟩ (initState false false)).trace.countP isThermometerRead = 0 ∧
       (AppInit ⟨some 1, 0x1234, 3300⟩ (initState false false)).trace.countP isBatteryRead = 0 ∧
       ((AppInit ⟨some 1, 0x1234, 3300⟩ (initState false false)).data_b.drop 22).take 3
          = [0x01, 0x00, 0x01] ∧
       (AppInit ⟨some 1, 0x1234, 3300⟩ (initState false false)).led = false ∧
       (AppInit ⟨some 1, 0x1234, 3300⟩ (initState false false)).trace.countP isClear = 0) ∧
    (AppInit ⟨some 1, 0x1234, 3300⟩ (initState false false)).trace.countP isThermometerRead = 1 ∧
    (AppInit ⟨some 1, 0x1234, 3300⟩ (initState false false)).trace.countP isBatteryRead = 1 ∧
    ((AppInit ⟨some 1, 0x1234, 3300⟩ (initState false false)).data_b.drop 22).take 3
      = [130, 0x12, 0x34] ∧
    (AppInit ⟨some 1, 0x1234, 3300⟩ (initState false false)).led = true ∧
    (AppInit ⟨some 1, 0x1234, 3300⟩ (initState false false)).trace.countP isClear = 1 := by
  decide

theorem AppInit_ok (led sensor : Bool) (i : Nat) (temp : Int) (mV : Nat) :
    AppInit ⟨some i, temp, mV⟩ (initState led sensor) =
      { data_b := tickPayload data_b_init ⟨some i, temp, mV⟩,
        led := !led, sensor := sensor,
        timers := [{ id := i, delay := 1 * SECOND }],
        halted := none,
        trace :=
          [.PioSetMode LED .pio_mode_user, .PioSetDir LED true,
           .PioSetMode SENSOR .pio_mode_user, .PioSetDir SENSOR false,
           .PioSetPullModes (1 <<< SENSOR) .pio_mode_weak_pull_up,
           .PioSetEventMask (1 <<< SENSOR) .pio_event_mode_both,
           .TimerInit MAX_TIMERS,
           .TimerCreate (1 * SECOND) true (some i), .PioGet LED led, .PioSet LED (!led),
           .ThermometerReadTemperature temp, .BatteryReadVoltage mV,
           .LsStoreAdvScanData 0 (tickPayload data_b_init ⟨some i, temp, mV⟩) .ad_src_advertise,
           .LsStoreAdvScanData 26 (tickPayload data_b_init ⟨some i, temp, mV⟩) .ad_src_advertise,
           .LsStartStopAdvertise true .whitelist_disabled .ls_addr_type_public,
           .GapSetMode .gap_role_broadcaster .gap_mode_discover_no .gap_mode_connect_no
              .gap_mode_bond_no .gap_mode_security_unauthenticate,
           .GapSetStaticAddress,
           .GapSetAdvInterval (500 * MILLISECOND) (500 * MILLISECOND),
           .LsStoreAdvScanData 26 (tickPayload data_b_init ⟨some i, temp, mV⟩) .ad_src_advertise,
           .LsStartStopScan false .whitelist_disabled .ls_addr_type_public,
           .LsStartStopAdvertise true .whitelist_disabled .ls_addr_type_public,
           .SleepModeChange .sleep_mode_deep] } := by
  unfold AppInit
  simp only [startTimer_ok ⟨some i, temp, mV⟩ 0 _ i rfl]
  simp [TimerInit, log, initState, LsStoreAdvScanData, LsStartStopAdvertise]

theorem AppInit_fail (led sensor : Bool) (temp : Int) (mV : Nat) :
    AppInit ⟨none, temp, mV⟩ (initState led sensor) =
      { initState led sensor with
        halted := some 0xfe,
        trace :=
          [.PioSetMode LED .pio_mode_user, .PioSetDir LED true,
           .PioSetMode SENSOR .pio_mode_user, .PioSetDir SENSOR false,
           .PioSetPullModes (1 <<< SENSOR) .pio_mode_weak_pull_up,
           .PioSetEventMask (1 <<< SENSOR) .pio_event_mode_both,
           .TimerInit MAX_TIMERS,
           .TimerCreate (1 * SECOND) true none, .Panic 0xfe] } := by
  unfold AppInit
  simp only [startTimer_fail ⟨none, temp, mV⟩ 0 _ rfl]
  simp [TimerInit, log, initState]

/-- C9 as amended: `AppInit` runs one full tick at once through its call
`startTimer(0)`.  When the timer is created, the state after `AppInit` has that
one timer outstanding with a delay of 1000 ms, the LED toggled, offsets 22-24
written from the readings and the rest of the payload as initialised, and the
trace is the pin and timer set-up, the eight calls of the tick (one
`TimerCreate`, one read of each sensor, one publish), then the GAP set-up, a
store of length 26, the scan stop, the start of advertising and the sleep mode.
When the timer is not created, `AppInit` ends in `Panic(0xfe)` with the payload
and the LED as they were. -/
theorem AppInit_first_tick (led sensor : Bool) (i : Nat) (temp : Int) (mV : Nat) :
    (AppInit ⟨some i, temp, mV⟩ (initState led sensor)).timers
      = [{ id := i, delay := 1000 * MILLISECOND }] ∧
    (AppInit ⟨some i, temp, mV⟩ (initState led sensor)).led = (!led) ∧
    (AppInit ⟨some i, temp, mV⟩ (initState led sensor)).halted = none ∧
    (AppInit ⟨some i, temp, mV⟩ (initState led sensor)).data_b[22]?
      = some (((((mV / 10 : Nat) : Int) - 200) % 256).toNat) ∧
    (AppInit ⟨some i, temp, mV⟩ (initState led sensor)).data_b[23]?
      = some ((temp >>> (8 : Nat)) % 256).toNat ∧
    (AppInit ⟨some i, temp, mV⟩ (initState led sensor)).data_b[24]?
      = some (temp % 256).toNat ∧
    (AppInit ⟨some i, temp, mV⟩ (initState led sensor)).data_b.take 22 = data_b_init.take 22 ∧
    (AppInit ⟨some i, temp, mV⟩ (initState led sensor)).data_b.drop 25 = data_b_init.drop 25 ∧
    (AppInit ⟨some i, temp, mV⟩ (initState led sensor)).trace =
      [.PioSetMode LED .pio_mode_user, .PioSetDir LED true,
       .PioSetMode SENSOR .pio_mode_user, .PioSetDir SENSOR false,
       .PioSetPullModes (1 <<< SENSOR) .pio_mode_weak_pull_up,
       .PioSetEventMask (1 <<< SENSOR) .pio_event_mode_both,
       .TimerInit MAX_TIMERS,
       .TimerCreate (1 * SECOND) true (some i), .PioGet LED led, .PioSet LED (!led),
       .ThermometerReadTemperature temp, .BatteryReadVoltage mV,
       .LsStoreAdvScanData 0 (AppInit ⟨some i, temp, mV⟩ (initState led sensor)).data_b
          .ad_src_advertise,
       .LsStoreAdvScanData 26 (AppInit ⟨some i, temp, mV⟩ (initState led sensor)).data_b
          .ad_src_advertise,
       .LsStartStopAdvertise true .whitelist_disabled .ls_addr_type_public,
       .GapSetMode .gap_role_broadcaster .gap_mode_discover_no .gap_mode_connect_no
          .gap_mode_bond_no .gap_mode_security_unauthenticate,
       .GapSetStaticAddress,
       .GapSetAdvInterval (500 * MILLISECOND) (500 * MILLISECOND),
       .LsStoreAdvScanData 26 (AppInit ⟨some i, temp, mV⟩ (initState led sensor)).data_b
          .ad_src_advertise,
       .LsStartStopScan false .whitelist_disabled .ls_addr_type_public,
       .LsStartStopAdvertise true .whitelist_disabled .ls_addr_type_public,
       .SleepModeChange .sleep_mode_deep] ∧
    (AppInit ⟨none, temp, mV⟩ (initState led sensor)).halted = some 0xfe ∧
    (AppInit ⟨none, temp, mV⟩ (initState led sensor)).data_b = data_b_init ∧
    (AppInit ⟨none, temp, mV⟩ (initState led sensor)).led = led := by
  rw [AppInit_ok, AppInit_fail]
  have hs : temp >>> (8 : Nat) = temp / 256 := by
    rw [Int.shiftRight_eq_div_pow]; rfl
  have hlen : data_b_init.length = 26 := rfl
  refine ⟨rfl, rfl, rfl, ?_, ?_, ?_, tickPayload_take _ _, tickPayload_drop _ _, rfl,
    rfl, rfl, rfl⟩
  · show (tickPayload data_b_init ⟨some i, temp, mV⟩)[22]? = _
    rw [tickPayload_get22 _ _ (by omega), toUInt8_toInt16]
  · show (tickPayload data_b_init ⟨some i, temp, mV⟩)[23]? = _
    rw [tickPayload_get23 _ _ (by omega), toUInt8_toInt16_shift, hs]
  · show (tickPayload data_b_init ⟨some i, temp, mV⟩)[24]? = _
    rw [tickPayload_get24 _ _ (by omega), toUInt8_toInt16]

end Beacon
